import Mathlib

/-!
Verification development for the Hardware-Monitor performance GUI
(src/performance_gui.py).  The Python metrics pipeline is shallowly
embedded: parsed JSON payloads become the inductive `JVal`, Python floats
become rationals, fallible Python code (code that may raise) returns
`Option`, and the `MainWindow` polling state machine becomes an explicit
step function on an `AppState` record.
-/

namespace HardwareMonitor

/-- Model of a parsed JSON value (the result of `json.loads`), as handed to
`sanitize_metrics`.  Python numbers are modelled by rationals. -/
inductive JVal where
  | jnull : JVal
  | jbool (b : Bool) : JVal
  | jnum (q : ℚ) : JVal
  | jstr (s : String) : JVal
  | jarr (xs : List JVal) : JVal
  | jobj (fields : List (String × JVal)) : JVal

/-- Whether a JSON value is an object (a Python dict). -/
def JVal.isObjB : JVal → Bool
  | .jobj _ => true
  | _ => false

/-- First-match lookup of a key in an object field list (Python dict keys are
unique, so first-match agrees with dict lookup). -/
def lookupField (fs : List (String × JVal)) (k : String) : Option JVal :=
  match fs with
  | [] => none
  | (k2, v) :: rest => if k2 = k then some v else lookupField rest k

/-- Numeric value of a list of decimal digit characters. -/
def digitsVal (cs : List Char) : ℕ :=
  cs.foldl (fun n c => n * 10 + (c.toNat - 48)) 0

/-- Parse the exponent digits of a float literal: an optional sign followed by
at least one digit, consuming the whole input. -/
def parseExpDigits (cs : List Char) : Option ℤ :=
  match cs with
  | '+' :: r => if r ≠ [] ∧ r.all Char.isDigit then some (digitsVal r) else none
  | '-' :: r => if r ≠ [] ∧ r.all Char.isDigit then some (-(digitsVal r : ℤ)) else none
  | r => if r ≠ [] ∧ r.all Char.isDigit then some (digitsVal r) else none

/-- Parse the optional exponent part of a float literal.  An empty remainder
means exponent 0; anything that is not a well-formed exponent is a parse
error. -/
def parseExpPart (cs : List Char) : Option ℤ :=
  match cs with
  | [] => some 0
  | 'e' :: rest => parseExpDigits rest
  | 'E' :: rest => parseExpDigits rest
  | _ => none

/-- Parse an unsigned decimal float literal (digits, optional fractional part,
optional exponent), as accepted by Python `float(str)` for finite decimal
notations. -/
def parseDec (cs : List Char) : Option ℚ :=
  let ip := cs.takeWhile Char.isDigit
  let r1 := cs.dropWhile Char.isDigit
  let fp :=
    match r1 with
    | '.' :: r => r.takeWhile Char.isDigit
    | _ => []
  let rest :=
    match r1 with
    | '.' :: r => r.dropWhile Char.isDigit
    | _ => r1
  if ip ++ fp = [] then none
  else
    match parseExpPart rest with
    | none => none
    | some e =>
      let m : ℚ := (digitsVal ip : ℚ) + (digitsVal fp : ℚ) / ((10 : ℚ) ^ fp.length)
      some (if 0 ≤ e then m * (10 : ℚ) ^ e.toNat else m / (10 : ℚ) ^ (-e).toNat)

/-- Strip leading and trailing whitespace from a character list, as Python
`float(str)` does to its argument. -/
def stripWS (cs : List Char) : List Char :=
  ((cs.dropWhile Char.isWhitespace).reverse.dropWhile Char.isWhitespace).reverse

/-- Model of Python `float(s)` on a string: surrounding whitespace is
stripped, an optional sign is consumed, then a finite decimal literal is
parsed.  (`inf`/`nan` spellings have no rational denotation and are outside
this embedding; digit-group underscores are likewise not modelled.) -/
def pyFloatOfString (s : String) : Option ℚ :=
  match stripWS s.toList with
  | '+' :: r => parseDec r
  | '-' :: r => (parseDec r).map Neg.neg
  | r => parseDec r

/-- Model of the local helper `fnum` in `sanitize_metrics`:
`try: return float(x) except: return None`.  Python `float()` accepts
numbers, booleans (`True` is `1.0`), and numeric strings; everything else
(None, lists, dicts, non-numeric strings) raises and yields `None`. -/
def fnum (v : JVal) : Option ℚ :=
  match v with
  | .jnum q => some q
  | .jbool b => some (if b then 1 else 0)
  | .jstr s => pyFloatOfString s
  | _ => none

/-- Model of the Python builtin `min(a, b)`: returns `b` when `b < a`, else
`a`. -/
def pymin (a b : ℚ) : ℚ := if b < a then b else a

/-- Model of the Python builtin `max(a, b)`: returns `b` when `a < b`, else
`a`. -/
def pymax (a b : ℚ) : ℚ := if a < b then b else a

/-- Model of the Python builtin `abs`. -/
def pyabs (q : ℚ) : ℚ := if q < 0 then -q else q

/-- Clamp a percentage into [0, 100]: `max(0.0, min(100.0, x))`. -/
def clampPct (q : ℚ) : ℚ := pymax 0 (pymin 100 q)

/-- Model of `svc.get(k, {}) if isinstance(svc, dict) else {}`: select a
channel sub-structure, defaulting to an empty dict. -/
def channelOf (svc : JVal) (k : String) : JVal :=
  match svc with
  | .jobj fs =>
    match lookupField fs k with
    | some v => v
    | none => .jobj []
  | _ => .jobj []

/-- Model of the Python method call `v.get(k)`: returns the looked-up value
(or `None` for a missing key) when `v` is a dict, and raises
`AttributeError` (here: `none`) otherwise. -/
def pyGet (v : JVal) (k : String) : Option JVal :=
  match v with
  | .jobj fs => some ((lookupField fs k).getD .jnull)
  | _ => none

/-- Normalized CPU/GPU channel of a `MetricsSnapshot`: optional load
percentage and optional temperature. -/
structure Channel2 where
  load : Option ℚ
  temp_c : Option ℚ
deriving DecidableEq

/-- Normalized RAM/VRAM channel of a `MetricsSnapshot`. -/
structure Channel3 where
  used_pct : Option ℚ
  used_gb : Option ℚ
  total_gb : Option ℚ
deriving DecidableEq

/-- The normalized snapshot produced by `sanitize_metrics`, always carrying
the four channels. -/
structure Snapshot where
  cpu : Channel2
  ram : Channel3
  gpu : Channel2
  vram : Channel3
deriving DecidableEq

/-- The cpu/gpu block of `sanitize_metrics`: read `load` and `temp_c` with
`.get` (which raises on a non-dict channel, propagated as `none`), coerce
with `fnum`, clamp the load when present. -/
def sanitizeChannel2 (ch : JVal) : Option Channel2 :=
  match pyGet ch "load", pyGet ch "temp_c" with
  | some loadRaw, some tempRaw =>
    some { load := (fnum loadRaw).map clampPct, temp_c := fnum tempRaw }
  | _, _ => none

/-- The ram/vram block of `sanitize_metrics`: read `used_gb`, `total_gb`,
`used_pct` (any raising `.get` propagates as `none`); derive `used_pct`
from `used_gb / total_gb * 100` when it is absent and both parts are
present with a positive total; clamp when present. -/
def sanitizeChannel3 (ch : JVal) : Option Channel3 :=
  match pyGet ch "used_gb", pyGet ch "total_gb", pyGet ch "used_pct" with
  | some uRaw, some tRaw, some pRaw =>
    let u := fnum uRaw
    let t := fnum tRaw
    let p0 := fnum pRaw
    let p1 :=
      match p0, u, t with
      | none, some uu, some tt => if 0 < tt then some (uu / tt * 100) else none
      | p, _, _ => p
    some { used_pct := p1.map clampPct, used_gb := u, total_gb := t }
  | _, _, _ => none

/-- Model of `sanitize_metrics`.  `none` models an uncaught Python exception
(an `AttributeError` from calling `.get` on a non-dict channel value,
raised by whichever channel block fails); `some` is the returned
four-channel snapshot. -/
def sanitize_metrics (svc : JVal) : Option Snapshot :=
  match sanitizeChannel2 (channelOf svc "cpu"), sanitizeChannel3 (channelOf svc "ram"),
      sanitizeChannel2 (channelOf svc "gpu"), sanitizeChannel3 (channelOf svc "vram") with
  | some cpu, some ram, some gpu, some vram =>
    some { cpu := cpu, ram := ram, gpu := gpu, vram := vram }
  | _, _, _, _ => none

/-- The all-absent snapshot that a non-dict top-level input degrades to. -/
def emptySnapshot : Snapshot :=
  { cpu := ⟨none, none⟩, ram := ⟨none, none, none⟩
    gpu := ⟨none, none⟩, vram := ⟨none, none, none⟩ }

/-- Model of the Python builtin `int()` on a float: truncation toward zero. -/
def pyint (q : ℚ) : ℤ := if q < 0 then ⌈q⌉ else ⌊q⌋

/-- Model of Python `round(t)` (used as `int(round(t))`): round half to even. -/
def pyRound (q : ℚ) : ℤ :=
  let f := ⌊q⌋
  let r := q - f
  if r < 1 / 2 then f
  else if 1 / 2 < r then f + 1
  else if f % 2 = 0 then f else f + 1

/-- RGB color triple, the observable content of a `QColor`. -/
abbrev Rgb : Type := ℤ × ℤ × ℤ

/-- Palette entry `accent_blue` (`#3B82F6`), the initial GPU ring color. -/
def colorAccentBlue : Rgb := ((59 : ℤ), (130 : ℤ), (246 : ℤ))

/-- Palette entry `text_secondary` (`#9AA4B2`), the gray used when the GPU
temperature is unknown. -/
def colorTextSecondary : Rgb := ((154 : ℤ), (164 : ℤ), (178 : ℤ))

/-- Model of `TemperatureCircularIndicator._color_from_temperature`: clamp
`t / max_temp` into [0, 1] and interpolate green to amber below 2/3 and
amber to red from 2/3 up, truncating each component with `int()`. -/
def color_from_temperature (max_temp t : ℚ) : Rgb :=
  let r01 := pymax 0 (pymin 1 (t / max_temp))
  if r01 < 2 / 3 then
    let k := r01 / (2 / 3)
    (pyint (34 + (245 - 34) * k), pyint (197 + (158 - 197) * k), pyint (94 + (11 - 94) * k))
  else
    let k := (r01 - 2 / 3) / (1 / 3)
    ((245 : ℤ), pyint (158 + (68 - 158) * k), (11 : ℤ))

/-- Observable state of a `CircularIndicator`: ring value and sub-text. -/
structure Indicator where
  value : ℚ
  subtext : String
deriving DecidableEq

/-- Model of `CircularIndicator.set_value`: clamp into [0, 100]. -/
def Indicator.set_value (ind : Indicator) (v : ℚ) : Indicator :=
  { ind with value := clampPct v }

/-- Model of `CircularIndicator.set_subtext`. -/
def Indicator.set_subtext (ind : Indicator) (s : String) : Indicator :=
  { ind with subtext := s }

/-- Observable state of a `TemperatureCircularIndicator` (GPU): the base
indicator state plus ring color, last temperature and the reference
ceiling `max_temp`. -/
structure GpuIndicator where
  value : ℚ
  subtext : String
  color : Rgb
  temp_c : ℚ
  max_temp : ℚ
deriving DecidableEq

/-- Model of `TemperatureCircularIndicator.set_stats`: set the clamped value;
with a temperature, remember it and recolor from it, otherwise go gray. -/
def GpuIndicator.set_stats (g : GpuIndicator) (usage : ℚ) (temp : Option ℚ) : GpuIndicator :=
  let g1 := { g with value := clampPct usage }
  match temp with
  | some t => { g1 with temp_c := t, color := color_from_temperature g1.max_temp t }
  | none => { g1 with color := colorTextSecondary }

/-- Model of `set_subtext` on the GPU indicator. -/
def GpuIndicator.set_subtext (g : GpuIndicator) (s : String) : GpuIndicator :=
  { g with subtext := s }

/-- Temperature sub-text: Celsius canonical, Fahrenheit derived at format
time (`(t * 9/5) + 32`), integer-rounded with a unit suffix. -/
def tempText (unit : String) (t : ℚ) : String :=
  if unit.toUpper = "F" then toString (pyRound (t * 9 / 5 + 32)) ++ "°F"
  else toString (pyRound t) ++ "°C"

/-- Model of the Python format `f"{x:.1f}"` on a rational: one decimal,
round half to even. -/
def fmt1 (q : ℚ) : String :=
  let n := pyRound (q * 10)
  let sgn := if n < 0 then "-" else ""
  sgn ++ toString (n.natAbs / 10) ++ "." ++ toString (n.natAbs % 10)

/-- Model of the Python format `f"{x:.0f}"` on a rational. -/
def fmt0 (q : ℚ) : String := toString (pyRound q)

/-- The used/total capacity sub-text for RAM and VRAM
(`f"{ru:.1f}/{rt:.0f}Go"` when both parts are present and total positive,
else the empty string). -/
def capacityText (u t : Option ℚ) : String :=
  match u, t with
  | some uu, some tt => if 0 < tt then fmt1 uu ++ "/" ++ fmt0 tt ++ "Go" else ""
  | _, _ => ""

/-- The `_display_cache` dict: per-channel smoothed values and last
sub-texts. -/
structure DisplayCache where
  cpu : ℚ
  ram : ℚ
  gpu : ℚ
  vram : ℚ
  cpu_text : String
  ram_text : String
  gpu_text : String
  vram_text : String
deriving DecidableEq

/-- Observable state of the `PerformancePanel`: the four indicators and the
status badge (`none` is the initial "Inconnu" state). -/
structure PanelState where
  cpu : Indicator
  ram : Indicator
  gpu : GpuIndicator
  vram : Indicator
  statusOnline : Option Bool
deriving DecidableEq

/-- Model of `PerformancePanel.set_status`. -/
def set_status (p : PanelState) (ok : Bool) : PanelState :=
  { p with statusOnline := some ok }

/-- The fixed smoothing factor `alpha = 0.35` of
`MainWindow._apply_service_metrics`. -/
def alpha : ℚ := 0.35

/-- One exponential smoothing step, the expression
`cur + (val - cur) * alpha` from `_apply_service_metrics`, for a general
factor `a`. -/
def smoothStep (a cur v : ℚ) : ℚ := cur + (v - cur) * a

/-- Iterated smoothing of a constant input `v` from start `d0`. -/
def smoothIter (a v d0 : ℚ) : ℕ → ℚ
  | 0 => d0
  | n + 1 => smoothStep a (smoothIter a v d0 n) v

/-- The CPU block of `_apply_service_metrics`: smooth the load, propagate
through the dead-band gate, then recompute and conditionally propagate the
temperature sub-text. -/
def applyCpu (eps : ℚ) (unit : String) (c : Channel2) (cp : DisplayCache × PanelState) :
    DisplayCache × PanelState :=
  let st1 :=
    match c.load with
    | some v =>
      let cur := cp.1.cpu
      let new_val := smoothStep alpha cur v
      if pyabs (new_val - cp.2.cpu.value) > eps then
        ({ cp.1 with cpu := new_val }, { cp.2 with cpu := cp.2.cpu.set_value new_val })
      else cp
    | none => cp
  let cpu_text :=
    match c.temp_c with
    | some t => tempText unit t
    | none => "N/A"
  if cpu_text ≠ st1.1.cpu_text then
    ({ st1.1 with cpu_text := cpu_text }, { st1.2 with cpu := st1.2.cpu.set_subtext cpu_text })
  else st1

/-- The RAM block of `_apply_service_metrics`. -/
def applyRam (eps : ℚ) (c : Channel3) (cp : DisplayCache × PanelState) :
    DisplayCache × PanelState :=
  let st1 :=
    match c.used_pct with
    | some v =>
      let cur := cp.1.ram
      let new_val := smoothStep alpha cur v
      if pyabs (new_val - cp.2.ram.value) > eps then
        ({ cp.1 with ram := new_val }, { cp.2 with ram := cp.2.ram.set_value new_val })
      else cp
    | none => cp
  let ram_text := capacityText c.used_gb c.total_gb
  if ram_text ≠ st1.1.ram_text then
    ({ st1.1 with ram_text := ram_text }, { st1.2 with ram := st1.2.ram.set_subtext ram_text })
  else st1

/-- The GPU block of `_apply_service_metrics`: like the CPU block but through
`set_stats`, and with the color refreshed from the temperature even when
the value stays inside the dead-band. -/
def applyGpu (eps : ℚ) (unit : String) (c : Channel2) (cp : DisplayCache × PanelState) :
    DisplayCache × PanelState :=
  let st1 :=
    match c.load with
    | some v =>
      let cur := cp.1.gpu
      let gl_val := smoothStep alpha cur v
      if pyabs (gl_val - cp.2.gpu.value) > eps then
        ({ cp.1 with gpu := gl_val }, { cp.2 with gpu := cp.2.gpu.set_stats gl_val c.temp_c })
      else
        match c.temp_c with
        | some t =>
          (cp.1, { cp.2 with gpu := { cp.2.gpu with
            color := color_from_temperature cp.2.gpu.max_temp t } })
        | none => cp
    | none => cp
  let gpu_text :=
    match c.temp_c with
    | some t => tempText unit t
    | none => "N/A"
  if gpu_text ≠ st1.1.gpu_text then
    ({ st1.1 with gpu_text := gpu_text }, { st1.2 with gpu := st1.2.gpu.set_subtext gpu_text })
  else st1

/-- The VRAM block of `_apply_service_metrics`. -/
def applyVram (eps : ℚ) (c : Channel3) (cp : DisplayCache × PanelState) :
    DisplayCache × PanelState :=
  let st1 :=
    match c.used_pct with
    | some v =>
      let cur := cp.1.vram
      let new_val := smoothStep alpha cur v
      if pyabs (new_val - cp.2.vram.value) > eps then
        ({ cp.1 with vram := new_val }, { cp.2 with vram := cp.2.vram.set_value new_val })
      else cp
    | none => cp
  let vram_text := capacityText c.used_gb c.total_gb
  if vram_text ≠ st1.1.vram_text then
    ({ st1.1 with vram_text := vram_text }, { st1.2 with vram := st1.2.vram.set_subtext vram_text })
  else st1

/-- Model of `MainWindow._apply_service_metrics` on the display state: the
four channel blocks run in source order (CPU, RAM, GPU, VRAM). -/
def apply_service_metrics_core (eps : ℚ) (unit : String) (svc : Snapshot)
    (cp : DisplayCache × PanelState) : DisplayCache × PanelState :=
  applyVram eps svc.vram (applyGpu eps unit svc.gpu (applyRam eps svc.ram (applyCpu eps unit svc.cpu cp)))

/-- Model of `MainWindow._clear_metrics`: zero the cache, zero every
indicator and set every sub-text to "N/A" (the GPU through
`set_stats(0.0, None)`, which also grays its ring). -/
def clear_metrics_core (cp : DisplayCache × PanelState) : DisplayCache × PanelState :=
  ({ cpu := 0, ram := 0, gpu := 0, vram := 0
     cpu_text := "", ram_text := "", gpu_text := "", vram_text := "" },
   { cp.2 with
      cpu := (cp.2.cpu.set_value 0).set_subtext "N/A"
      ram := (cp.2.ram.set_value 0).set_subtext "N/A"
      gpu := (cp.2.gpu.set_stats 0 none).set_subtext "N/A"
      vram := (cp.2.vram.set_value 0).set_subtext "N/A" })

/-- The hard interval ceiling `self._max_interval_ms = 10_000`. -/
def maxIntervalMs : ℕ := 10000

/-- The interval update of `_on_request_failed`:
`min(max_interval, max(base_interval, current * 2))`. -/
def onFailedInterval (base cur : ℕ) : ℕ := min maxIntervalMs (max base (cur * 2))

/-- Full client state of `MainWindow`: display state, last-known-good
snapshot, in-flight flag, timer intervals and the settings fields the
pipeline reads. -/
structure AppState where
  cache : DisplayCache
  panel : PanelState
  lastMetrics : Option Snapshot
  reqInFlight : Bool
  baseInterval : ℕ
  currentInterval : ℕ
  eps : ℚ
  tempUnit : String
deriving DecidableEq

/-- Model of `MainWindow._apply_service_metrics` acting on the full state. -/
def apply_service_metrics (svc : Snapshot) (s : AppState) : AppState :=
  let cp := apply_service_metrics_core s.eps s.tempUnit svc (s.cache, s.panel)
  { s with cache := cp.1, panel := cp.2 }

/-- Model of `MainWindow._clear_metrics` acting on the full state. -/
def clear_metrics (s : AppState) : AppState :=
  let cp := clear_metrics_core (s.cache, s.panel)
  { s with cache := cp.1, panel := cp.2 }

/-- Model of `MainWindow._on_request_success`: go online, store the
last-known-good snapshot, reset the backoff to the base interval and apply
the fresh snapshot. -/
def on_request_success (svc : Snapshot) (s : AppState) : AppState :=
  let s1 := { s with panel := set_status s.panel true, lastMetrics := some svc }
  let s2 :=
    if s1.currentInterval ≠ s1.baseInterval then { s1 with currentInterval := s1.baseInterval }
    else s1
  apply_service_metrics svc s2

/-- Model of `MainWindow._on_request_failed`: go offline, re-apply the
last-known-good snapshot when one exists (else clear the gauges), then
back off the poll interval. -/
def on_request_failed (s : AppState) : AppState :=
  let s1 := { s with panel := set_status s.panel false }
  let s2 :=
    match s1.lastMetrics with
    | some m => apply_service_metrics m s1
    | none => clear_metrics s1
  { s2 with currentInterval := onFailedInterval s2.baseInterval s2.currentInterval }

/-- Outcome of a finished network reply, as consumed by
`_on_network_reply`: a transport error, or a body whose JSON decode either
failed (`none`) or produced a value. -/
inductive ReplyResult where
  | netError : ReplyResult
  | body (parsed : Option JVal) : ReplyResult

/-- Model of `MainWindow._on_network_reply`: drop the in-flight flag first;
transport errors, JSON decode errors and `sanitize_metrics` exceptions all
take the failure path, a sanitized payload takes the success path. -/
def on_network_reply (s : AppState) (r : ReplyResult) : AppState :=
  let s1 := { s with reqInFlight := false }
  match r with
  | .netError => on_request_failed s1
  | .body none => on_request_failed s1
  | .body (some v) =>
    match sanitize_metrics v with
    | some snap => on_request_success snap s1
    | none => on_request_failed s1

/-- Model of `MainWindow._tick`.  Returns the new state and whether a
request was issued.  While a request is in flight the tick is a no-op; the
in-flight flag is set before `nam.get` is called, and if `nam.get` raises
(`getRaises`) the failure handler runs with no request issued. -/
def tick (s : AppState) (getRaises : Bool) : AppState × Bool :=
  if s.reqInFlight then (s, false)
  else
    let s1 := { s with reqInFlight := true }
    if getRaises then (on_request_failed s1, false) else (s1, true)

/-- A scheduling event: a timer tick or a network-reply completion. -/
inductive Event where
  | tick (getRaises : Bool) : Event
  | reply (r : ReplyResult) : Event

/-- One transition of the polling state machine; the boolean records whether
an HTTP request was issued by the transition. -/
def step (s : AppState) : Event → AppState × Bool
  | .tick b => tick s b
  | .reply r => (on_network_reply s r, false)

/-- Initial `MainWindow` state: empty cache, zeroed indicators, unknown
status, no snapshot, no request in flight, interval at its base
(`max(250, interval_ms)`). -/
def initState (interval_ms : ℕ) (eps : ℚ) (unit : String) : AppState :=
  { cache := { cpu := 0, ram := 0, gpu := 0, vram := 0
               cpu_text := "", ram_text := "", gpu_text := "", vram_text := "" }
    panel := { cpu := { value := 0, subtext := "" }
               ram := { value := 0, subtext := "" }
               gpu := { value := 0, subtext := "", color := colorAccentBlue
                        temp_c := 0, max_temp := pymax 1 90 }
               vram := { value := 0, subtext := "" }
               statusOnline := none }
    lastMetrics := none
    reqInFlight := false
    baseInterval := max 250 interval_ms
    currentInterval := max 250 interval_ms
    eps := eps
    tempUnit := unit }

/-- States reachable from a given start state under the step relation. -/
inductive Reachable (s0 : AppState) : AppState → Prop where
  | init : Reachable s0 s0
  | step (s : AppState) (e : Event) : Reachable s0 s → Reachable s0 (step s e).1

/-- The well-shapedness condition under which `sanitize_metrics` cannot
raise: each selected channel sub-structure is a dict.  (It holds trivially
when the top-level value is not a dict, every channel then defaulting to
the empty dict.) -/
def goodShape (svc : JVal) : Prop :=
  (channelOf svc "cpu").isObjB = true ∧ (channelOf svc "ram").isObjB = true ∧
    (channelOf svc "gpu").isObjB = true ∧ (channelOf svc "vram").isObjB = true

/-- A percentage field is absent or lies within [0, 100]. -/
def optPctInRange (o : Option ℚ) : Prop :=
  ∀ q : ℚ, o = some q → 0 ≤ q ∧ q ≤ 100

/-- A snapshot carrying only a CPU load, used to exercise the dead-band
gate on concrete inputs. -/
def cpuOnly (v : ℚ) : Snapshot :=
  { cpu := ⟨some v, none⟩, ram := ⟨none, none, none⟩
    gpu := ⟨none, none⟩, vram := ⟨none, none, none⟩ }

/-- A concrete reachable state with a request in flight: the initial state
after one tick. -/
def inFlightState : AppState := (step (initState 1000 (8 / 10) "C") (.tick false)).1

theorem pymin_eq_min (a b : ℚ) : pymin a b = min a b := by
  unfold pymin
  split
  · exact (min_eq_right (le_of_lt (by assumption))).symm
  · exact (min_eq_left (le_of_not_lt (by assumption))).symm

theorem pymax_eq_max (a b : ℚ) : pymax a b = max a b := by
  unfold pymax
  split
  · exact (max_eq_right (le_of_lt (by assumption))).symm
  · exact (max_eq_left (le_of_not_lt (by assumption))).symm

theorem pyabs_eq_abs (q : ℚ) : pyabs q = |q| := by
  unfold pyabs
  split
  · exact (abs_of_neg (by assumption)).symm
  · exact (abs_of_nonneg (le_of_not_lt (by assumption))).symm

theorem clampPct_mem (q : ℚ) : 0 ≤ clampPct q ∧ clampPct q ≤ 100 := by
  unfold clampPct pymax pymin
  split_ifs <;> constructor <;> linarith

theorem sanitizeChannel2_isSome (ch : JVal) :
    (sanitizeChannel2 ch).isSome = ch.isObjB := by
  cases ch <;> rfl

theorem sanitizeChannel3_isSome (ch : JVal) :
    (sanitizeChannel3 ch).isSome = ch.isObjB := by
  cases ch <;> rfl

theorem sanitize_metrics_isSome (svc : JVal) :
    (sanitize_metrics svc).isSome =
      ((channelOf svc "cpu").isObjB && ((channelOf svc "ram").isObjB &&
        ((channelOf svc "gpu").isObjB && (channelOf svc "vram").isObjB))) := by
  rw [← sanitizeChannel2_isSome (channelOf svc "cpu"),
    ← sanitizeChannel3_isSome (channelOf svc "ram"),
    ← sanitizeChannel2_isSome (channelOf svc "gpu"),
    ← sanitizeChannel3_isSome (channelOf svc "vram")]
  unfold sanitize_metrics
  cases sanitizeChannel2 (channelOf svc "cpu") <;>
    cases sanitizeChannel3 (channelOf svc "ram") <;>
      cases sanitizeChannel2 (channelOf svc "gpu") <;>
        cases sanitizeChannel3 (channelOf svc "vram") <;> rfl

/-- C1 counterexample: the claim "sanitize_metrics never raises an
exception" is false.  On the input `{"cpu": 5}` the Python code evaluates
`svc.get("cpu", {}).get("load")` on the integer `5` and raises
`AttributeError`; the model returns `none`. -/
theorem sanitize_raises_cex_c1 :
    sanitize_metrics (.jobj [("cpu", .jnum 5)]) = none := rfl

/-- C1 (amended): `sanitize_metrics` returns a four-channel snapshot and
raises no exception exactly when every channel sub-structure it selects is
a dict; in particular a non-dict top-level input degrades to the
all-absent snapshot, but a present non-dict channel value raises. -/
theorem sanitize_total_on_goodShape_c1 (svc : JVal) :
    ((sanitize_metrics svc).isSome = true ↔ goodShape svc) ∧
      (svc.isObjB = false → sanitize_metrics svc = some emptySnapshot) := by
  constructor
  · rw [sanitize_metrics_isSome]
    unfold goodShape
    simp [Bool.and_eq_true]
  · intro h
    cases svc with
    | jobj fs => simp [JVal.isObjB] at h
    | jnull => rfl
    | jbool b => rfl
    | jnum q => rfl
    | jstr s => rfl
    | jarr xs => rfl

theorem sanitizeChannel2_load_shape (ch : JVal) (c : Channel2)
    (h : sanitizeChannel2 ch = some c) :
    c.load = none ∨ ∃ y : ℚ, c.load = some (clampPct y) := by
  unfold sanitizeChannel2 at h
  cases h1 : pyGet ch "load" with
  | none => rw [h1] at h; simp at h
  | some lr =>
    cases h2 : pyGet ch "temp_c" with
    | none => rw [h1, h2] at h; simp at h
    | some tr =>
      rw [h1, h2] at h
      simp only [Option.some_inj] at h
      cases hf : fnum lr with
      | none => left; rw [← h]; simp [hf]
      | some y => right; exact ⟨y, by rw [← h]; simp [hf]⟩

theorem sanitizeChannel3_pct_shape (ch : JVal) (c : Channel3)
    (h : sanitizeChannel3 ch = some c) :
    c.used_pct = none ∨ ∃ y : ℚ, c.used_pct = some (clampPct y) := by
  unfold sanitizeChannel3 at h
  cases h1 : pyGet ch "used_gb" with
  | none => rw [h1] at h; simp at h
  | some uRaw =>
    cases h2 : pyGet ch "total_gb" with
    | none => rw [h1, h2] at h; simp at h
    | some tRaw =>
      cases h3 : pyGet ch "used_pct" with
      | none => rw [h1, h2, h3] at h; simp at h
      | some pRaw =>
        rw [h1, h2, h3] at h
        simp only [Option.some_inj] at h
        rw [← h]
        cases hp :
            (match fnum pRaw, fnum uRaw, fnum tRaw with
              | none, some uu, some tt => if 0 < tt then some (uu / tt * 100) else none
              | p, _, _ => p) with
        | none => left; simp [hp]
        | some y => right; exact ⟨y, by simp [hp]⟩

theorem sanitize_metrics_parts (svc : JVal) (out : Snapshot)
    (h : sanitize_metrics svc = some out) :
    sanitizeChannel2 (channelOf svc "cpu") = some out.cpu ∧
      sanitizeChannel3 (channelOf svc "ram") = some out.ram ∧
      sanitizeChannel2 (channelOf svc "gpu") = some out.gpu ∧
      sanitizeChannel3 (channelOf svc "vram") = some out.vram := by
  unfold sanitize_metrics at h
  cases h1 : sanitizeChannel2 (channelOf svc "cpu") with
  | none => rw [h1] at h; simp at h
  | some cpu =>
    cases h2 : sanitizeChannel3 (channelOf svc "ram") with
    | none => rw [h1, h2] at h; simp at h
    | some ram =>
      cases h3 : sanitizeChannel2 (channelOf svc "gpu") with
      | none => rw [h1, h2, h3] at h; simp at h
      | some gpu =>
        cases h4 : sanitizeChannel3 (channelOf svc "vram") with
        | none => rw [h1, h2, h3, h4] at h; simp at h
        | some vram =>
          rw [h1, h2, h3, h4] at h
          simp only [Option.some_inj] at h
          rw [← h]
          exact ⟨rfl, rfl, rfl, rfl⟩

theorem opt_shape_range (o : Option ℚ)
    (h : o = none ∨ ∃ y : ℚ, o = some (clampPct y)) : optPctInRange o := by
  intro q hq
  rcases h with h | ⟨y, h⟩
  · rw [h] at hq; cases hq
  · rw [h] at hq
    cases hq
    exact clampPct_mem y

/-- C7: for every input on which `sanitize_metrics` returns (raises no
exception), each output percentage field — cpu.load, ram.used_pct,
gpu.load, vram.used_pct — is either absent or within [0, 100]; and on
concrete inputs with a missing or non-numeric load, the output load is
absent (`none`), never zero. -/
theorem sanitize_pct_range_c7 (svc : JVal) (out : Snapshot)
    (h : sanitize_metrics svc = some out) :
    optPctInRange out.cpu.load ∧ optPctInRange out.ram.used_pct ∧
      optPctInRange out.gpu.load ∧ optPctInRange out.vram.used_pct ∧
      (sanitize_metrics (.jobj [("cpu", .jobj [("load", .jstr "abc")])])).map
          (fun o => o.cpu.load) = some none ∧
      (sanitize_metrics (.jobj [])).map (fun o => o.cpu.load) = some none := by
  obtain ⟨hc, hr, hg, hv⟩ := sanitize_metrics_parts svc out h
  refine ⟨opt_shape_range _ (sanitizeChannel2_load_shape _ _ hc),
    opt_shape_range _ (sanitizeChannel3_pct_shape _ _ hr),
    opt_shape_range _ (sanitizeChannel2_load_shape _ _ hg),
    opt_shape_range _ (sanitizeChannel3_pct_shape _ _ hv), ?_, ?_⟩
  · with_unfolding_all rfl
  · with_unfolding_all rfl

/-- C7 witness: the range theorem applied at a concrete input. -/
theorem sanitize_pct_range_c7_witness :
    sanitize_metrics (.jobj []) = some emptySnapshot ∧
      (optPctInRange emptySnapshot.cpu.load ∧ optPctInRange emptySnapshot.ram.used_pct ∧
        optPctInRange emptySnapshot.gpu.load ∧ optPctInRange emptySnapshot.vram.used_pct ∧
        (sanitize_metrics (.jobj [("cpu", .jobj [("load", .jstr "abc")])])).map
            (fun o => o.cpu.load) = some none ∧
        (sanitize_metrics (.jobj [])).map (fun o => o.cpu.load) = some none) :=
  ⟨rfl, sanitize_pct_range_c7 (.jobj []) emptySnapshot rfl⟩

/-- C8: with `used_pct` absent and `used_gb = u`, `total_gb = t > 0`
supplied, the sanitizer derives `used_pct = u / t * 100` (then clamps);
supplying a consistent `used_pct = u / t * 100` directly yields the same
output; a supplied numeric `used_pct` is used as given (clamped), never
recomputed; and `used=6, total=16` derives `37.5`. -/
theorem derive_used_pct_c8 (u t p q : ℚ) (ht : 0 < t) (hp : p = u / t * 100) :
    (sanitize_metrics (.jobj [("ram", .jobj
        [("used_gb", .jnum u), ("total_gb", .jnum t)])])).map
        (fun o => o.ram.used_pct) = some (some (clampPct (u / t * 100))) ∧
      (sanitize_metrics (.jobj [("ram", .jobj
          [("used_gb", .jnum u), ("total_gb", .jnum t), ("used_pct", .jnum p)])])).map
          (fun o => o.ram.used_pct) = some (some (clampPct (u / t * 100))) ∧
      (sanitize_metrics (.jobj [("ram", .jobj
          [("used_gb", .jnum u), ("total_gb", .jnum t), ("used_pct", .jnum q)])])).map
          (fun o => o.ram.used_pct) = some (some (clampPct q)) ∧
      (sanitize_metrics (.jobj [("ram", .jobj
          [("used_gb", .jnum 6), ("total_gb", .jnum 16)])])).map
          (fun o => o.ram.used_pct) = some (some (75 / 2)) := by
  subst hp
  refine ⟨?_, ?_, ?_, ?_⟩
  · simp [sanitize_metrics, sanitizeChannel2, sanitizeChannel3, channelOf, lookupField,
      pyGet, fnum, ht]
  · simp [sanitize_metrics, sanitizeChannel2, sanitizeChannel3, channelOf, lookupField,
      pyGet, fnum, ht]
  · simp [sanitize_metrics, sanitizeChannel2, sanitizeChannel3, channelOf, lookupField,
      pyGet, fnum, ht]
  · with_unfolding_all rfl

/-- C8 witness: the derivation theorem applied at `u = 6`, `t = 16`,
`p = 37.5`, `q = 50`. -/
theorem derive_used_pct_c8_witness :
    (0 : ℚ) < 16 ∧ (37.5 : ℚ) = 6 / 16 * 100 ∧
      ((sanitize_metrics (.jobj [("ram", .jobj
          [("used_gb", .jnum 6), ("total_gb", .jnum 16)])])).map
          (fun o => o.ram.used_pct) = some (some (clampPct (6 / 16 * 100))) ∧
        (sanitize_metrics (.jobj [("ram", .jobj
            [("used_gb", .jnum 6), ("total_gb", .jnum 16), ("used_pct", .jnum 37.5)])])).map
            (fun o => o.ram.used_pct) = some (some (clampPct (6 / 16 * 100))) ∧
        (sanitize_metrics (.jobj [("ram", .jobj
            [("used_gb", .jnum 6), ("total_gb", .jnum 16), ("used_pct", .jnum 50)])])).map
            (fun o => o.ram.used_pct) = some (some (clampPct 50)) ∧
        (sanitize_metrics (.jobj [("ram", .jobj
            [("used_gb", .jnum 6), ("total_gb", .jnum 16)])])).map
            (fun o => o.ram.used_pct) = some (some (75 / 2))) :=
  ⟨of_decide_eq_true (by with_unfolding_all rfl), by with_unfolding_all rfl,
    derive_used_pct_c8 6 16 37.5 50 (of_decide_eq_true (by with_unfolding_all rfl))
      (by with_unfolding_all rfl)⟩

/-- C9: the GPU temperature ramp clamps `t / maxTemp` into [0, 1] and
interpolates piecewise-linearly in two segments: any `t ≤ 0` gives
RGB(34,197,94), `t = maxTemp * 2/3` gives RGB(245,158,11) (the ratio 2/3
falls in the second segment under the strict `< 2/3` test), and any
`t ≥ maxTemp` gives RGB(245,68,11), exactly (within integer rounding). -/
theorem color_ramp_c9 (m : ℚ) (hm : 1 ≤ m) :
    (∀ t : ℚ, t ≤ 0 →
        color_from_temperature m t = ((34 : ℤ), (197 : ℤ), (94 : ℤ))) ∧
      color_from_temperature m (m * (2 / 3)) = ((245 : ℤ), (158 : ℤ), (11 : ℤ)) ∧
      (∀ t : ℚ, m ≤ t →
        color_from_temperature m t = ((245 : ℤ), (68 : ℤ), (11 : ℤ))) := by
  have hm0 : (0 : ℚ) < m := lt_of_lt_of_le one_pos hm
  refine ⟨?_, ?_, ?_⟩
  · intro t ht
    have hdiv : t / m ≤ 0 := div_nonpos_of_nonpos_of_nonneg ht (le_of_lt hm0)
    unfold color_from_temperature pymax pymin
    rw [if_pos (lt_of_le_of_lt hdiv one_pos), if_neg (not_lt.mpr hdiv),
      if_pos (by norm_num : (0 : ℚ) < 2 / 3)]
    norm_num [pyint]
  · have hratio : m * (2 / 3) / m = 2 / 3 := by
      field_simp
      ring
    unfold color_from_temperature pymax pymin
    rw [hratio]
    rw [if_pos (by norm_num : (2 / 3 : ℚ) < 1), if_pos (by norm_num : (0 : ℚ) < 2 / 3),
      if_neg (lt_irrefl ((2 : ℚ) / 3))]
    norm_num [pyint]
  · intro t ht
    have hdiv : (1 : ℚ) ≤ t / m := (one_le_div hm0).mpr ht
    unfold color_from_temperature pymax pymin
    rw [if_neg (not_lt.mpr hdiv), if_pos one_pos,
      if_neg (by norm_num : ¬ (1 : ℚ) < 2 / 3)]
    norm_num [pyint]

/-- C9 witness: the ramp anchors at the default ceiling `maxTemp = 90`. -/
theorem color_ramp_c9_witness :
    (1 : ℚ) ≤ 90 ∧
      ((∀ t : ℚ, t ≤ 0 →
          color_from_temperature 90 t = ((34 : ℤ), (197 : ℤ), (94 : ℤ))) ∧
        color_from_temperature 90 (90 * (2 / 3)) = ((245 : ℤ), (158 : ℤ), (11 : ℤ)) ∧
        (∀ t : ℚ, (90 : ℚ) ≤ t →
          color_from_temperature 90 t = ((245 : ℤ), (68 : ℤ), (11 : ℤ)))) :=
  ⟨of_decide_eq_true (by with_unfolding_all rfl),
    color_ramp_c9 90 (of_decide_eq_true (by with_unfolding_all rfl))⟩

/-- C10: the coercion `fnum` accepts exactly what Python `float()` accepts:
numeric strings parse to their value ("55.2" is 55.2), booleans are 1 or
0, numbers pass through; non-numeric strings, None, lists and dicts
become absent, never zero. -/
theorem fnum_coercion_c10 :
    fnum (.jstr "55.2") = some (276 / 5) ∧
      (∀ b, fnum (.jbool b) = some (if b then 1 else 0)) ∧
      (∀ q : ℚ, fnum (.jnum q) = some q) ∧
      fnum (.jstr "abc") = none ∧
      fnum .jnull = none ∧
      (∀ xs, fnum (.jarr xs) = none) ∧
      (∀ fs, fnum (.jobj fs) = none) :=
  ⟨by with_unfolding_all rfl, fun b => rfl, fun q => rfl,
    by with_unfolding_all rfl, rfl, fun xs => rfl, fun fs => rfl⟩

/-- C2: whenever the base interval does not exceed the current one (as in
every state the scheduler produces), a request failure doubles the current
interval and caps it at 10000 ms, a success resets it to the base; from
base 1000 the failure sequence runs 1000, 2000, 4000, 8000 and caps at
10000, never 16000. -/
theorem backoff_c2 (s : AppState) (snap : Snapshot)
    (h : s.baseInterval ≤ s.currentInterval) :
    (on_request_failed s).currentInterval = min 10000 (s.currentInterval * 2) ∧
      (on_request_success snap s).currentInterval = s.baseInterval ∧
      onFailedInterval 1000 1000 = 2000 ∧ onFailedInterval 1000 2000 = 4000 ∧
      onFailedInterval 1000 4000 = 8000 ∧ onFailedInterval 1000 8000 = 10000 ∧
      onFailedInterval 1000 10000 = 10000 ∧ onFailedInterval 1000 8000 ≠ 16000 := by
  refine ⟨?_, ?_, by decide, by decide, by decide, by decide, by decide, by decide⟩
  · have e : (on_request_failed s).currentInterval =
        onFailedInterval s.baseInterval s.currentInterval := by
      unfold on_request_failed
      cases s.lastMetrics <;> rfl
    rw [e]
    unfold onFailedInterval maxIntervalMs
    omega
  · have e : (on_request_success snap s).currentInterval =
        if s.currentInterval ≠ s.baseInterval then s.baseInterval else s.currentInterval := by
      unfold on_request_success apply_service_metrics
      dsimp only
      split <;> rfl
    rw [e]
    split
    · rfl
    · exact not_ne_iff.mp (by assumption)

/-- C2 witness: the backoff theorem at the freshly initialized state. -/
theorem backoff_c2_witness :
    (initState 1000 (8 / 10) "C").baseInterval ≤ (initState 1000 (8 / 10) "C").currentInterval ∧
      ((on_request_failed (initState 1000 (8 / 10) "C")).currentInterval =
          min 10000 ((initState 1000 (8 / 10) "C").currentInterval * 2) ∧
        (on_request_success emptySnapshot (initState 1000 (8 / 10) "C")).currentInterval =
          (initState 1000 (8 / 10) "C").baseInterval ∧
        onFailedInterval 1000 1000 = 2000 ∧ onFailedInterval 1000 2000 = 4000 ∧
        onFailedInterval 1000 4000 = 8000 ∧ onFailedInterval 1000 8000 = 10000 ∧
        onFailedInterval 1000 10000 = 10000 ∧ onFailedInterval 1000 8000 ≠ 16000) :=
  ⟨of_decide_eq_true (by with_unfolding_all rfl),
    backoff_c2 (initState 1000 (8 / 10) "C") emptySnapshot
      (of_decide_eq_true (by with_unfolding_all rfl))⟩

/-- C3: in every reachable state with the in-flight flag set, a timer tick
is a strict no-op that issues no request; in every state, a transition
that issues a request leaves the flag set; and from an in-flight state the
flag can only be cleared by a reply event (request completion or
failure). -/
theorem single_flight_c3 (interval_ms : ℕ) (eps : ℚ) (unit : String) (s : AppState)
    (_hr : Reachable (initState interval_ms eps unit) s) (hin : s.reqInFlight = true) :
    (∀ b, step s (.tick b) = (s, false)) ∧
      (∀ s2 b, (step s2 (.tick b)).2 = true → (step s2 (.tick b)).1.reqInFlight = true) ∧
      (∀ e, (step s e).1.reqInFlight = false → ∃ r, e = .reply r) := by
  refine ⟨?_, ?_, ?_⟩
  · intro b
    simp [step, tick, hin]
  · intro s2 b hissued
    unfold step tick at hissued ⊢
    by_cases h2 : s2.reqInFlight
    · simp [h2] at hissued
    · cases b
      · simp [h2]
      · simp [h2] at hissued
  · intro e hcleared
    cases e with
    | tick b =>
      exfalso
      unfold step tick at hcleared
      rw [hin] at hcleared
      simp at hcleared
      rw [hcleared] at hin
      cases hin
    | reply r => exact ⟨r, rfl⟩

/-- C3 witness: applied at the concrete reachable in-flight state reached by
one tick from the initial state. -/
theorem single_flight_c3_witness :
    inFlightState.reqInFlight = true ∧
      ((∀ b, step inFlightState (.tick b) = (inFlightState, false)) ∧
        (∀ s2 b, (step s2 (.tick b)).2 = true → (step s2 (.tick b)).1.reqInFlight = true) ∧
        (∀ e, (step inFlightState e).1.reqInFlight = false → ∃ r, e = .reply r)) :=
  ⟨rfl, single_flight_c3 1000 (8 / 10) "C" inFlightState
    (Reachable.step (initState 1000 (8 / 10) "C") (.tick false) Reachable.init) rfl⟩

/-- C4: a request failure never changes the last-known-good snapshot; when
a last-known-good snapshot exists the failure path feeds it to
`_apply_service_metrics` (on the offline-marked panel), so the gauges hold
values derived from it instead of blinking to zero; only when no snapshot
was ever obtained are all four indicators cleared to 0 with sub-text
"N/A". -/
theorem failure_holds_last_good_c4 (s : AppState) :
    (on_request_failed s).lastMetrics = s.lastMetrics ∧
      (∀ m, s.lastMetrics = some m →
        ((on_request_failed s).cache, (on_request_failed s).panel) =
          apply_service_metrics_core s.eps s.tempUnit m (s.cache, set_status s.panel false)) ∧
      (s.lastMetrics = none →
        (on_request_failed s).panel.cpu.value = 0 ∧
          (on_request_failed s).panel.cpu.subtext = "N/A" ∧
          (on_request_failed s).panel.ram.value = 0 ∧
          (on_request_failed s).panel.ram.subtext = "N/A" ∧
          (on_request_failed s).panel.gpu.value = 0 ∧
          (on_request_failed s).panel.gpu.subtext = "N/A" ∧
          (on_request_failed s).panel.vram.value = 0 ∧
          (on_request_failed s).panel.vram.subtext = "N/A" ∧
          (on_request_failed s).cache.cpu = 0 ∧ (on_request_failed s).cache.ram = 0 ∧
          (on_request_failed s).cache.gpu = 0 ∧ (on_request_failed s).cache.vram = 0) := by
  have hc0 : clampPct 0 = 0 := by norm_num [clampPct, pymax, pymin]
  refine ⟨?_, ?_, ?_⟩
  · unfold on_request_failed
    cases s.lastMetrics <;> rfl
  · intro m hm
    unfold on_request_failed apply_service_metrics
    rw [hm]
  · intro hm
    unfold on_request_failed clear_metrics clear_metrics_core
    rw [hm]
    dsimp only
    simp [Indicator.set_value, Indicator.set_subtext, GpuIndicator.set_stats,
      GpuIndicator.set_subtext, hc0]

theorem applyRam_cpu_cache (eps : ℚ) (c : Channel3) (cp : DisplayCache × PanelState) :
    (applyRam eps c cp).1.cpu = cp.1.cpu := by
  cases hcp : c.used_pct <;>
    simp [applyRam, hcp, Indicator.set_value, Indicator.set_subtext] <;>
      split_ifs <;> simp

theorem applyRam_cpu_panel (eps : ℚ) (c : Channel3) (cp : DisplayCache × PanelState) :
    (applyRam eps c cp).2.cpu = cp.2.cpu := by
  cases hcp : c.used_pct <;>
    simp [applyRam, hcp, Indicator.set_value, Indicator.set_subtext] <;>
      split_ifs <;> simp

theorem applyGpu_cpu_cache (eps : ℚ) (unit : String) (c : Channel2)
    (cp : DisplayCache × PanelState) :
    (applyGpu eps unit c cp).1.cpu = cp.1.cpu := by
  cases hcl : c.load <;> cases hct : c.temp_c <;>
    simp [applyGpu, hcl, hct, GpuIndicator.set_stats, GpuIndicator.set_subtext] <;>
      split_ifs <;> simp

theorem applyGpu_cpu_panel (eps : ℚ) (unit : String) (c : Channel2)
    (cp : DisplayCache × PanelState) :
    (applyGpu eps unit c cp).2.cpu = cp.2.cpu := by
  cases hcl : c.load <;> cases hct : c.temp_c <;>
    simp [applyGpu, hcl, hct, GpuIndicator.set_stats, GpuIndicator.set_subtext] <;>
      split_ifs <;> simp

theorem applyVram_cpu_cache (eps : ℚ) (c : Channel3) (cp : DisplayCache × PanelState) :
    (applyVram eps c cp).1.cpu = cp.1.cpu := by
  cases hcp : c.used_pct <;>
    simp [applyVram, hcp, Indicator.set_value, Indicator.set_subtext] <;>
      split_ifs <;> simp

theorem applyVram_cpu_panel (eps : ℚ) (c : Channel3) (cp : DisplayCache × PanelState) :
    (applyVram eps c cp).2.cpu = cp.2.cpu := by
  cases hcp : c.used_pct <;>
    simp [applyVram, hcp, Indicator.set_value, Indicator.set_subtext] <;>
      split_ifs <;> simp

theorem applyCpu_gate (eps : ℚ) (unit : String) (c : Channel2)
    (cp : DisplayCache × PanelState) (v : ℚ) (h : c.load = some v) :
    (applyCpu eps unit c cp).1.cpu =
        (if pyabs (smoothStep alpha cp.1.cpu v - cp.2.cpu.value) > eps
         then smoothStep alpha cp.1.cpu v else cp.1.cpu) ∧
      (applyCpu eps unit c cp).2.cpu.value =
        (if pyabs (smoothStep alpha cp.1.cpu v - cp.2.cpu.value) > eps
         then clampPct (smoothStep alpha cp.1.cpu v) else cp.2.cpu.value) := by
  unfold applyCpu
  rw [h]
  dsimp only
  constructor <;> split_ifs <;>
    simp_all [Indicator.set_value, Indicator.set_subtext]

/-- C6: the dead-band gate of `_apply_service_metrics` propagates the
smoothed CPU value to the indicator and the cache exactly when
`|new - currentRenderedValue| > eps` (strict comparison); on the initial
display a smoothed change of exactly `eps = 0.8` (raw CPU load 16/7) does
not propagate, while a change of `0.81 = eps + 0.01` (raw load 81/35)
does. -/
theorem deadband_c6 (eps : ℚ) (unit : String) (svc : Snapshot)
    (cp : DisplayCache × PanelState) (v : ℚ) (h : svc.cpu.load = some v) :
    (apply_service_metrics_core eps unit svc cp).1.cpu =
        (if pyabs (smoothStep alpha cp.1.cpu v - cp.2.cpu.value) > eps
         then smoothStep alpha cp.1.cpu v else cp.1.cpu) ∧
      (apply_service_metrics_core eps unit svc cp).2.cpu.value =
        (if pyabs (smoothStep alpha cp.1.cpu v - cp.2.cpu.value) > eps
         then clampPct (smoothStep alpha cp.1.cpu v) else cp.2.cpu.value) ∧
      (apply_service_metrics_core (8 / 10) "C" (cpuOnly (16 / 7))
          ((initState 1000 (8 / 10) "C").cache, (initState 1000 (8 / 10) "C").panel)).2.cpu.value
        = 0 ∧
      (apply_service_metrics_core (8 / 10) "C" (cpuOnly (81 / 35))
          ((initState 1000 (8 / 10) "C").cache, (initState 1000 (8 / 10) "C").panel)).2.cpu.value
        = 81 / 100 := by
  have h1 : (apply_service_metrics_core eps unit svc cp).1.cpu =
      (applyCpu eps unit svc.cpu cp).1.cpu := by
    unfold apply_service_metrics_core
    rw [applyVram_cpu_cache, applyGpu_cpu_cache, applyRam_cpu_cache]
  have h2 : (apply_service_metrics_core eps unit svc cp).2.cpu =
      (applyCpu eps unit svc.cpu cp).2.cpu := by
    unfold apply_service_metrics_core
    rw [applyVram_cpu_panel, applyGpu_cpu_panel, applyRam_cpu_panel]
  obtain ⟨g1, g2⟩ := applyCpu_gate eps unit svc.cpu cp v h
  exact ⟨h1.trans g1, (congrArg Indicator.value h2).trans g2,
    by with_unfolding_all rfl, by with_unfolding_all rfl⟩

/-- C6 witness: the gate theorem at a concrete raw load of 4 on the initial
display state. -/
theorem deadband_c6_witness :
    (cpuOnly 4).cpu.load = some 4 ∧
      ((apply_service_metrics_core (8 / 10) "C" (cpuOnly 4)
            ((initState 1000 (8 / 10) "C").cache, (initState 1000 (8 / 10) "C").panel)).1.cpu =
          (if pyabs (smoothStep alpha (initState 1000 (8 / 10) "C").cache.cpu 4 -
                (initState 1000 (8 / 10) "C").panel.cpu.value) > (8 / 10 : ℚ)
           then smoothStep alpha (initState 1000 (8 / 10) "C").cache.cpu 4
           else (initState 1000 (8 / 10) "C").cache.cpu) ∧
        (apply_service_metrics_core (8 / 10) "C" (cpuOnly 4)
            ((initState 1000 (8 / 10) "C").cache, (initState 1000 (8 / 10) "C").panel)).2.cpu.value =
          (if pyabs (smoothStep alpha (initState 1000 (8 / 10) "C").cache.cpu 4 -
                (initState 1000 (8 / 10) "C").panel.cpu.value) > (8 / 10 : ℚ)
           then clampPct (smoothStep alpha (initState 1000 (8 / 10) "C").cache.cpu 4)
           else (initState 1000 (8 / 10) "C").panel.cpu.value) ∧
        (apply_service_metrics_core (8 / 10) "C" (cpuOnly (16 / 7))
            ((initState 1000 (8 / 10) "C").cache, (initState 1000 (8 / 10) "C").panel)).2.cpu.value
          = 0 ∧
        (apply_service_metrics_core (8 / 10) "C" (cpuOnly (81 / 35))
            ((initState 1000 (8 / 10) "C").cache, (initState 1000 (8 / 10) "C").panel)).2.cpu.value
          = 81 / 100) :=
  ⟨rfl, deadband_c6 (8 / 10) "C" (cpuOnly 4)
    ((initState 1000 (8 / 10) "C").cache, (initState 1000 (8 / 10) "C").panel) 4 rfl⟩

theorem smoothIter_succ_sub (a v d0 : ℚ) (n : ℕ) :
    v - smoothIter a v d0 (n + 1) = (v - smoothIter a v d0 n) * (1 - a) := by
  simp only [smoothIter, smoothStep]
  ring

theorem smoothIter_closed (a v d0 : ℚ) (n : ℕ) :
    v - smoothIter a v d0 n = (v - d0) * (1 - a) ^ n := by
  induction n with
  | zero => simp [smoothIter]
  | succ k ih =>
    rw [smoothIter_succ_sub, ih, pow_succ]
    ring

/-- C5: each smoothing step computes `displayed + (v - displayed) * alpha`,
with the code constant `alpha = 0.35` sending `displayed = 50, v = 100` to
`67.5`; and for any factor `a` in (0, 1], iterating the step on a constant
input `v` shrinks the distance to `v` monotonically, never crosses `v`,
and converges to `v`. -/
theorem smoothing_c5 (a v d0 : ℚ) (h1 : 0 < a) (h2 : a ≤ 1) :
    smoothStep alpha 50 100 = 67.5 ∧
      (∀ n, |v - smoothIter a v d0 (n + 1)| ≤ |v - smoothIter a v d0 n|) ∧
      (∀ n, (d0 ≤ v → smoothIter a v d0 n ≤ v) ∧ (v ≤ d0 → v ≤ smoothIter a v d0 n)) ∧
      (∀ ε : ℚ, 0 < ε → ∃ N : ℕ, ∀ n, N ≤ n → |v - smoothIter a v d0 n| < ε) := by
  have hr0 : (0 : ℚ) ≤ 1 - a := by linarith
  have hr1 : 1 - a < 1 := by linarith
  refine ⟨by norm_num [smoothStep, alpha], ?_, ?_, ?_⟩
  · intro n
    rw [smoothIter_succ_sub, abs_mul, abs_of_nonneg hr0]
    exact mul_le_of_le_one_right (abs_nonneg _) (by linarith)
  · intro n
    constructor
    · intro hd
      have := smoothIter_closed a v d0 n
      nlinarith [pow_nonneg hr0 n, mul_nonneg (sub_nonneg.mpr hd) (pow_nonneg hr0 n)]
    · intro hd
      have := smoothIter_closed a v d0 n
      nlinarith [pow_nonneg hr0 n, mul_nonneg (sub_nonneg.mpr hd) (pow_nonneg hr0 n)]
  · intro ε hε
    by_cases hvd : v - d0 = 0
    · refine ⟨0, fun n _ => ?_⟩
      rw [smoothIter_closed, hvd, zero_mul, abs_zero]
      exact hε
    · have habs : 0 < |v - d0| := abs_pos.mpr hvd
      obtain ⟨N, hN⟩ := exists_pow_lt_of_lt_one (div_pos hε habs) hr1
      refine ⟨N, fun n hn => ?_⟩
      rw [smoothIter_closed, abs_mul, abs_pow, abs_of_nonneg hr0]
      have hmono : (1 - a) ^ n ≤ (1 - a) ^ N :=
        pow_le_pow_of_le_one hr0 (le_of_lt hr1) hn
      calc |v - d0| * (1 - a) ^ n ≤ |v - d0| * (1 - a) ^ N :=
            mul_le_mul_of_nonneg_left hmono (le_of_lt habs)
        _ < |v - d0| * (ε / |v - d0|) := mul_lt_mul_of_pos_left hN habs
        _ = ε := by field_simp

/-- C5 witness: the smoothing theorem at the code constant
`a = alpha = 0.35` with `v = 100`, `d0 = 50`. -/
theorem smoothing_c5_witness :
    (0 : ℚ) < 7 / 20 ∧ (7 / 20 : ℚ) ≤ 1 ∧
      (smoothStep alpha 50 100 = 67.5 ∧
        (∀ n, |100 - smoothIter (7 / 20) 100 50 (n + 1)| ≤ |100 - smoothIter (7 / 20) 100 50 n|) ∧
        (∀ n, ((50 : ℚ) ≤ 100 → smoothIter (7 / 20) 100 50 n ≤ 100) ∧
          ((100 : ℚ) ≤ 50 → (100 : ℚ) ≤ smoothIter (7 / 20) 100 50 n)) ∧
        (∀ ε : ℚ, 0 < ε → ∃ N : ℕ, ∀ n, N ≤ n →
          |100 - smoothIter (7 / 20) 100 50 n| < ε)) :=
  ⟨of_decide_eq_true (by with_unfolding_all rfl),
    of_decide_eq_true (by with_unfolding_all rfl),
    smoothing_c5 (7 / 20) 100 50 (of_decide_eq_true (by with_unfolding_all rfl))
      (of_decide_eq_true (by with_unfolding_all rfl))⟩

end HardwareMonitor
